import Mathlib

set_option maxRecDepth 8000

/-!
Shallow embedding of the task-management lambda API.

Primary model (namespace TaskApi): the extended variant
src/aws-labs/RestApiWithLambdaAndApiGateway/lab-files/objective-3/src/app.py.
Secondary model (namespace TaskApi.O1): the basic variant
src/aws/aws-labs/RestApiWithLambdaAndApiGateway/objective-1/src/app.py.

Modelling conventions:
- Python global mutable state (the tasks dict, the log, messages delivered to
  the SQS dead-letter queue) is threaded explicitly as an AppState value.
- External nondeterminism is injected through oracles in Config:
  clock n is the n-th datetime.utcnow().isoformat() reading, uuidGen n the
  n-th str(uuid.uuid4()) draw, randomFail n the n-th evaluation of
  random.random() < 0.7, and sqsFail n tells whether the n-th
  sqs.send_message call raises.  Counters tk, uk, rk, sk in AppState count
  the draws already consumed.
- json.loads is abstracted: a request body is carried together with its
  parse outcome (inductive Body); invalid bodies raise json.JSONDecodeError,
  modelled as the Body.invalid constructor.
- Python exceptions are modelled by Except PyErr with PyErr the str(error)
  text; a handler returns (Except PyErr Response) × AppState so that state
  mutations made before a raise persist, as they do for Python globals.
- str.strip and str.lower are re-implemented on the character list (ASCII
  whitespace and ASCII case only, which covers every string the code and
  the claims use), because the kernel cannot reduce String.trim/toLower.
-/

namespace TaskApi

/-- Python values produced by json.loads: null, booleans, numbers
(integral only, which is all the code ever compares), strings, lists and
dicts (association lists with the insertion order of the JSON text). -/
inductive JValue where
  | jnull
  | jbool (b : Bool)
  | jnum (n : Int)
  | jstr (s : String)
  | jarr (elems : List JValue)
  | jobj (fields : List (String × JValue))

/-- Exceptions carry their str(error) text. -/
abbrev PyErr := String

/-- ASCII whitespace recognised by str.strip. -/
def isSpaceChar (c : Char) : Bool :=
  c == ' ' || c == '\t' || c == '\n' || c == '\r'

/-- str.strip: drop leading and trailing whitespace. -/
def pyStrip (s : String) : String :=
  String.mk (((s.data.dropWhile isSpaceChar).reverse.dropWhile isSpaceChar).reverse)

/-- ASCII lower-casing of one character. -/
def lowerChar (c : Char) : Char :=
  if 'A' ≤ c && c ≤ 'Z' then Char.ofNat (c.toNat + 32) else c

/-- str.lower. -/
def pyLower (s : String) : String := String.mk (s.data.map lowerChar)

/-- First-match lookup in a dict, mirroring Python dict access (keys are
unique in any dict json.loads produces, so first match is the match). -/
def jlookup (fields : List (String × JValue)) (key : String) : Option JValue :=
  match fields with
  | [] => none
  | (k, v) :: tl => if k = key then some v else jlookup tl key

/-- body.get(key, default): AttributeError when the receiver is not a dict. -/
def pyGet (v : JValue) (key : String) (dflt : JValue) : Except PyErr JValue :=
  match v with
  | .jobj fields => .ok ((jlookup fields key).getD dflt)
  | _ => .error "AttributeError: object has no attribute get"

/-- value.strip(): AttributeError when the value is not a string. -/
def pyStripVal (v : JValue) : Except PyErr String :=
  match v with
  | .jstr s => .ok (pyStrip s)
  | _ => .error "AttributeError: object has no attribute strip"

/-- body.get(key, default).strip() as used by create_task. -/
def pyGetStrip (body : JValue) (key dflt : String) : Except PyErr String :=
  match pyGet body key (.jstr dflt) with
  | .error e => .error e
  | .ok v => pyStripVal v

/-- Python equality of an arbitrary value against a string literal, as in
the comparison chain of test_error_handling: true only for the equal str. -/
def jeqStr (v : JValue) (s : String) : Bool :=
  match v with
  | .jstr t => t == s
  | _ => false

/-- Python truthiness of a JSON value. -/
def pyTruthy : JValue → Bool
  | .jnull => false
  | .jbool b => b
  | .jnum n => !(n == 0)
  | .jstr s => !(s == "")
  | .jarr es => !es.isEmpty
  | .jobj fs => !fs.isEmpty

/-- A request body together with its json.loads outcome: absent (the event
has no body key, so event.get falls back to the empty-object text),
invalid JSON text, or valid JSON text with its parsed value. -/
inductive Body where
  | absent
  | invalid (raw : String)
  | parsed (raw : String) (v : JValue)

/-- event.get with no default, for the dead-letter snapshot of the body. -/
def Body.raw : Body → Option String
  | .absent => none
  | .invalid r => some r
  | .parsed r _ => some r

/-- json.loads(event.get(body-key, the empty-object text)). -/
def loads : Body → Except Unit JValue
  | .absent => .ok (.jobj [])
  | .invalid _ => .error ()
  | .parsed _ v => .ok v

/-- The parts of the API Gateway event the extended variant reads. -/
structure Event where
  httpMethod : String
  path : String
  body : Body

/-- The lambda context object; hasattr probes are modelled by Option. -/
structure Ctx where
  functionName : Option String
  awsRequestId : Option String

/-- event.get(request-context-key, empty dict) is a plain dict, which has
neither a function_name nor an aws_request_id attribute. -/
def dictCtx : Ctx := { functionName := none, awsRequestId := none }

/-- Process-wide configuration plus the oracles for the external
collaborators (clock, uuid generator, random source, SQS client). -/
structure Config where
  environment : String
  apiStage : String
  dlqUrl : Option String
  clock : Nat → String
  uuidGen : Nat → String
  randomFail : Nat → Bool
  sqsFail : Nat → Bool

/-- Truthiness of the DLQ_URL environment value (unset or empty is falsy). -/
def Config.dlqConfigured (cfg : Config) : Bool :=
  match cfg.dlqUrl with
  | none => false
  | some u => !(u == "")

/-- A stored task of the extended variant. -/
structure Task where
  id : String
  title : String
  description : String
  priority : String
  status : String
  created_at : String
  updated_at : String
  environment : String
  deriving DecidableEq

/-- A message delivered to the dead-letter queue: the serialized body
fields of send_error_to_dlq plus the two message attributes. -/
structure DlqMessage where
  errorType : String
  errorMessage : String
  timestamp : String
  environment : String
  functionName : String
  requestId : String
  eventMethod : String
  eventPath : String
  eventBody : Option String
  attrErrorType : String
  attrEnvironment : String
  deriving DecidableEq

/-- Log records produced through the logger. -/
inductive LogEntry where
  | info (msg : String)
  | warn (msg : String)
  | err (msg : String)
  deriving DecidableEq

/-- The mutable process state: the tasks dict (insertion-ordered
association list, as Python dicts are), the delivered DLQ messages, the
log, and the counters of consumed oracle draws. -/
structure AppState where
  tasks : List (String × Task)
  dlq : List DlqMessage
  log : List LogEntry
  tk : Nat
  uk : Nat
  rk : Nat
  sk : Nat

/-- The state of a freshly started process. -/
def initState : AppState :=
  { tasks := [], dlq := [], log := [], tk := 0, uk := 0, rk := 0, sk := 0 }

/-- datetime.utcnow().isoformat(): consume the next clock reading. -/
def utcnow (cfg : Config) (st : AppState) : String × AppState :=
  (cfg.clock st.tk, { st with tk := st.tk + 1 })

/-- str(uuid.uuid4()): consume the next uuid draw. -/
def freshUuid (cfg : Config) (st : AppState) : String × AppState :=
  (cfg.uuidGen st.uk, { st with uk := st.uk + 1 })

/-- random.random() < 0.7: consume the next random draw. -/
def drawRandom (cfg : Config) (st : AppState) : Bool × AppState :=
  (cfg.randomFail st.rk, { st with rk := st.rk + 1 })

/-- An HTTP response: status code, headers and the dict handed to
json.dumps (kept as a JValue rather than serialized text). -/
structure Response where
  statusCode : Nat
  headers : List (String × String)
  body : JValue

/-- The fixed header set both response builders emit. -/
def baseHeaders (cfg : Config) (ts : String) : List (String × String) :=
  [("Content-Type", "application/json"),
   ("Access-Control-Allow-Origin", "*"),
   ("Access-Control-Allow-Headers",
     "Content-Type,X-Amz-Date,Authorization,X-Api-Key,X-Amz-Security-Token"),
   ("Access-Control-Allow-Methods", "GET,POST,OPTIONS"),
   ("X-Environment", cfg.environment),
   ("X-API-Stage", cfg.apiStage),
   ("X-Timestamp", ts)]

/-- The success envelope body. -/
def successBody (cfg : Config) (data : JValue) (ts : String) : JValue :=
  .jobj [("success", .jbool true),
         ("data", data),
         ("meta", .jobj [("environment", .jstr cfg.environment),
                         ("stage", .jstr cfg.apiStage),
                         ("timestamp", .jstr ts)])]

/-- The conditional details entry of the error envelope: added only when
the details argument is passed and truthy, as the Python if tests. -/
def detailsFields : Option JValue → List (String × JValue)
  | none => []
  | some d => if pyTruthy d then [("details", d)] else []

/-- The error envelope body. -/
def errorBody (cfg : Config) (code message ts : String) (details : Option JValue) : JValue :=
  .jobj [("success", .jbool false),
         ("error", .jobj ([("code", .jstr code),
                           ("message", .jstr message),
                           ("timestamp", .jstr ts),
                           ("environment", .jstr cfg.environment),
                           ("stage", .jstr cfg.apiStage)] ++ detailsFields details))]

/-- create_success_response: one clock reading for the X-Timestamp header,
one for the meta timestamp, in that order. -/
def create_success_response (cfg : Config) (st : AppState) (status_code : Nat)
    (data : JValue) : Response × AppState :=
  let (hts, st1) := utcnow cfg st
  let (mts, st2) := utcnow cfg st1
  ({ statusCode := status_code, headers := baseHeaders cfg hts,
     body := successBody cfg data mts }, st2)

/-- create_error_response: one clock reading for the X-Timestamp header,
one for the error timestamp, in that order. -/
def create_error_response (cfg : Config) (st : AppState) (status_code : Nat)
    (error_code message : String) (details : Option JValue) : Response × AppState :=
  let (hts, st1) := utcnow cfg st
  let (ets, st2) := utcnow cfg st1
  ({ statusCode := status_code, headers := baseHeaders cfg hts,
     body := errorBody cfg error_code message ets details }, st2)

/-- Serialization of a stored task into the response payload. -/
def taskJson (t : Task) : JValue :=
  .jobj [("id", .jstr t.id), ("title", .jstr t.title),
         ("description", .jstr t.description), ("priority", .jstr t.priority),
         ("status", .jstr t.status), ("created_at", .jstr t.created_at),
         ("updated_at", .jstr t.updated_at), ("environment", .jstr t.environment)]

/-- health_check of the extended variant. -/
def health_check (cfg : Config) (st : AppState) : Response × AppState :=
  let (ts, st1) := utcnow cfg st
  create_success_response cfg st1 200 (.jobj
    [("status", .jstr "healthy"), ("environment", .jstr cfg.environment),
     ("stage", .jstr cfg.apiStage), ("timestamp", .jstr ts),
     ("version", .jstr "3.0.0"),
     ("features", .jobj
        [("dlq", .jstr (if cfg.dlqConfigured then "enabled" else "disabled")),
         ("error_handling", .jstr "enabled")])])

/-- get_all_tasks. -/
def get_all_tasks (cfg : Config) (st : AppState) : Response × AppState :=
  let task_list := st.tasks.map Prod.snd
  create_success_response cfg st 200 (.jobj
    [("tasks", .jarr (task_list.map taskJson)),
     ("count", .jnum (task_list.length : Int))])

/-- The title rule pair: required first, and only a non-empty title is
length-checked (the elif in the source). -/
def titleErrors (title : String) : List String :=
  if title = "" then ["Title is required"]
  else if title.length > 100 then ["Title must be 100 characters or less"]
  else []

/-- The description length rule. -/
def descriptionErrors (description : String) : List String :=
  if description.length > 500 then ["Description must be 500 characters or less"]
  else []

/-- The priority membership rule of the extended variant. -/
def priorityErrors (priority : String) : List String :=
  if priority ∈ (["low", "medium", "high"] : List String) then []
  else ["Priority must be low, medium, or high"]

/-- The violation list create_task accumulates, in source order. -/
def validation_errors (title description priority : String) : List String :=
  titleErrors title ++ descriptionErrors description ++ priorityErrors priority

/-- Python dict assignment d[k] = v: replace the value in place when the
key exists, append otherwise. -/
def dictInsert {α : Type} : List (String × α) → String → α → List (String × α)
  | [], k, v => [(k, v)]
  | (k2, v2) :: tl, k, v =>
      if k2 = k then (k, v) :: tl else (k2, v2) :: dictInsert tl k v

/-- create_task of the extended variant.  The except clause of the source
catches only json.JSONDecodeError; AttributeError from non-dict bodies or
non-string field values escapes to the router boundary. -/
def create_task (cfg : Config) (st : AppState) (event : Event) :
    (Except PyErr Response) × AppState :=
  match loads event.body with
  | .error _ =>
      let (r, st1) := create_error_response cfg st 400 "INVALID_JSON"
        "Request body must be valid JSON" none
      (.ok r, st1)
  | .ok body =>
    match pyGetStrip body "title" "" with
    | .error e => (.error e, st)
    | .ok title =>
      match pyGetStrip body "description" "" with
      | .error e => (.error e, st)
      | .ok description =>
        match pyGetStrip body "priority" "medium" with
        | .error e => (.error e, st)
        | .ok pr =>
          let priority := pyLower pr
          let verrs := validation_errors title description priority
          if verrs ≠ [] then
            let (r, st1) := create_error_response cfg st 400 "VALIDATION_ERROR"
              "Validation failed"
              (some (.jobj [("errors", .jarr (verrs.map JValue.jstr))]))
            (.ok r, st1)
          else
            let (task_id, st1) := freshUuid cfg st
            let (cts, st2) := utcnow cfg st1
            let (uts, st3) := utcnow cfg st2
            let task : Task :=
              { id := task_id, title := title, description := description,
                priority := priority, status := "pending",
                created_at := cts, updated_at := uts,
                environment := cfg.environment }
            let st4 := { st3 with
              tasks := dictInsert st3.tasks task_id task,
              log := st3.log ++ [.info ("Task created: " ++ task_id)] }
            let (r, st5) := create_success_response cfg st4 201
              (.jobj [("message", .jstr "Task created successfully"),
                      ("task", taskJson task)])
            (.ok r, st5)

/-- send_error_to_dlq.  Returns through Except to mirror the Python
control flow: the try block can only fail at the sqs.send_message call,
and that failure is caught by the except clause, so the function in fact
always returns normally (proved below, never assumed). -/
def send_error_to_dlq (cfg : Config) (st : AppState) (error : PyErr)
    (context : Ctx) (event : Event) (error_type : String) :
    (Except PyErr Unit) × AppState :=
  if cfg.dlqConfigured = false then
    (.ok (), { st with
      log := st.log ++ [.warn "DLQ_URL not configured, cannot send error to DLQ"] })
  else
    let (ts, st1) := utcnow cfg st
    let msg : DlqMessage :=
      { errorType := error_type, errorMessage := error, timestamp := ts,
        environment := cfg.environment,
        functionName := context.functionName.getD "unknown",
        requestId := context.awsRequestId.getD "unknown",
        eventMethod := event.httpMethod, eventPath := event.path,
        eventBody := event.body.raw,
        attrErrorType := error_type, attrEnvironment := cfg.environment }
    let st2 := { st1 with sk := st1.sk + 1 }
    if cfg.sqsFail st1.sk then
      (.ok (), { st2 with
        log := st2.log ++ [.err "Failed to send message to DLQ"] })
    else
      (.ok (), { st2 with
        dlq := st2.dlq ++ [msg],
        log := st2.log ++ [.info ("Error sent to DLQ: " ++ error_type)] })

/-- test_error_handling of the extended variant.  errorType defaults to
the exception branch when the field is absent; the equality chain is the
Python == against the three string literals. -/
def test_error_handling (cfg : Config) (st : AppState) (event : Event) :
    (Except PyErr Response) × AppState :=
  match loads event.body with
  | .error _ =>
      let (r, st1) := create_error_response cfg st 400 "INVALID_JSON"
        "Request body must be valid JSON" none
      (.ok r, st1)
  | .ok body =>
    match pyGet body "errorType" (.jstr "exception") with
    | .error e => (.error e, st)
    | .ok error_type =>
      if jeqStr error_type "exception" then
        (.error "Test exception for DLQ testing", st)
      else if jeqStr error_type "dlq" then
        match send_error_to_dlq cfg st "Manual DLQ test" dictCtx event "manual_dlq_test" with
        | (.error e, st1) => (.error e, st1)
        | (.ok _, st1) =>
          let (r, st2) := create_success_response cfg st1 200
            (.jobj [("message", .jstr "Test message sent to DLQ"),
                    ("dlq_url", match cfg.dlqUrl with
                                | none => .jnull
                                | some u => .jstr u)])
          (.ok r, st2)
      else if jeqStr error_type "random" then
        let (fail, st1) := drawRandom cfg st
        if fail then (.error "Random test failure", st1)
        else
          let (r, st2) := create_success_response cfg st1 200
            (.jobj [("message", .jstr "Random test passed"),
                    ("success_rate", .jstr "30%")])
          (.ok r, st2)
      else
        let (r, st1) := create_error_response cfg st 400 "INVALID_ERROR_TYPE"
          "errorType must be: exception, dlq, or random" none
        (.ok r, st1)

/-- The logger.info line at the top of lambda_handler. -/
def logRequest (cfg : Config) (st : AppState) (event : Event) : AppState :=
  { st with log := st.log ++ [.info ("Environment: " ++ cfg.environment ++
      ", Method: " ++ event.httpMethod ++ ", Path: " ++ event.path)] }

/-- The routing chain of lambda_handler: exact method and path match,
falling through to the 404 outcome. -/
def route (cfg : Config) (st : AppState) (event : Event) :
    (Except PyErr Response) × AppState :=
  if event.httpMethod = "GET" ∧ event.path = "/health" then
    let (r, st1) := health_check cfg st
    (.ok r, st1)
  else if event.httpMethod = "GET" ∧ event.path = "/tasks" then
    let (r, st1) := get_all_tasks cfg st
    (.ok r, st1)
  else if event.httpMethod = "POST" ∧ event.path = "/tasks" then
    create_task cfg st event
  else if event.httpMethod = "POST" ∧ event.path = "/test/error" then
    test_error_handling cfg st event
  else
    let (r, st1) := create_error_response cfg st 404 "NOT_FOUND" "Endpoint not found" none
    (.ok r, st1)

/-- lambda_handler of the extended variant: log, route, and on any raise
send to the DLQ first, log, then return the fixed 500 envelope. -/
def lambda_handler (cfg : Config) (st : AppState) (event : Event) (context : Ctx) :
    (Except PyErr Response) × AppState :=
  let st0 := logRequest cfg st event
  match route cfg st0 event with
  | (.ok r, st1) => (.ok r, st1)
  | (.error e, st1) =>
    match send_error_to_dlq cfg st1 e context event "unhandled_exception" with
    | (.error e2, st2) => (.error e2, st2)
    | (.ok _, st2) =>
      let st3 := { st2 with log := st2.log ++ [.err ("Unhandled error: " ++ e)] }
      let (r, st4) := create_error_response cfg st3 500 "INTERNAL_ERROR"
        "Internal server error occurred" none
      (.ok r, st4)

/-- States reachable by any sequence of handled events from process start. -/
inductive Reach (cfg : Config) : AppState → Prop where
  | init : Reach cfg initState
  | step (st : AppState) (event : Event) (context : Ctx) :
      Reach cfg st → Reach cfg (lambda_handler cfg st event context).2

/-- The data invariant of a stored task of the extended variant. -/
def ValidTask (cfg : Config) (t : Task) : Prop :=
  t.title ≠ "" ∧ t.title.length ≤ 100 ∧ t.description.length ≤ 500 ∧
  t.priority ∈ (["low", "medium", "high"] : List String) ∧
  t.status = "pending" ∧ t.environment = cfg.environment

/-- A response body fitting one of the two envelope variants of the
active configuration. -/
def Enveloped (cfg : Config) (r : Response) : Prop :=
  (∃ d ts, r.body = successBody cfg d ts) ∨
  (∃ c m ts dt, r.body = errorBody cfg c m ts dt)

/-- Decide whether the first list is an initial segment of the second. -/
def charsLeading : List Char → List Char → Bool
  | [], _ => true
  | _ :: _, [] => false
  | a :: as, b :: bs => a == b && charsLeading as bs

/-- path.startswith(text), over the character lists so it reduces. -/
def pyStartsWith (s pre : String) : Bool := charsLeading pre.data s.data

namespace O1

/-- Configuration of the basic variant: it reads no environment values,
so only the clock and uuid oracles remain. -/
structure Config1 where
  clock : Nat → String
  uuidGen : Nat → String

/-- A stored task of the basic variant.  title and description are stored
exactly as found in the parsed body, without validation or coercion, so
they are arbitrary JSON values. -/
structure Task1 where
  id : String
  title : JValue
  description : JValue
  status : String
  created_at : String

/-- Mutable state of the basic variant. -/
structure State1 where
  tasks : List (String × Task1)
  tk : Nat
  uk : Nat

/-- The state of a freshly started basic-variant process. -/
def initState : State1 := { tasks := [], tk := 0, uk := 0 }

/-- The parts of the event the basic variant reads. -/
structure Event1 where
  httpMethod : String
  path : String
  pathParameters : List (String × String)
  body : Body

/-- pathParameters.get(key) with default None. -/
def plookup (params : List (String × String)) (key : String) : Option String :=
  match params with
  | [] => none
  | (k, v) :: tl => if k = key then some v else plookup tl key

/-- create_response of the basic variant: fixed headers, body as given,
no envelope and no environment metadata. -/
def create_response (status_code : Nat) (body : JValue) : Response :=
  { statusCode := status_code,
    headers :=
      [("Content-Type", "application/json"),
       ("Access-Control-Allow-Origin", "*"),
       ("Access-Control-Allow-Headers",
         "Content-Type,X-Amz-Date,Authorization,X-Api-Key,X-Amz-Security-Token"),
       ("Access-Control-Allow-Methods", "GET,POST,OPTIONS")],
    body := body }

/-- Serialization of a basic-variant task into the response payload. -/
def task1Json (t : Task1) : JValue :=
  .jobj [("id", .jstr t.id), ("title", t.title),
         ("description", t.description), ("status", .jstr t.status),
         ("created_at", .jstr t.created_at)]

/-- get_all_tasks of the basic variant. -/
def get_all_tasks (st : State1) : Response :=
  let task_list := st.tasks.map Prod.snd
  create_response 200 (.jobj
    [("tasks", .jarr (task_list.map task1Json)),
     ("count", .jnum (task_list.length : Int))])

/-- create_task of the basic variant: only a truthiness check on title,
no length bound, no description bound, raw values stored. -/
def create_task (cfg : Config1) (st : State1) (event : Event1) :
    (Except PyErr Response) × State1 :=
  match loads event.body with
  | .error _ => (.ok (create_response 400 (.jobj [("error", .jstr "Invalid JSON")])), st)
  | .ok body =>
    match pyGet body "title" .jnull with
    | .error e => (.error e, st)
    | .ok title =>
      if pyTruthy title = false then
        (.ok (create_response 400 (.jobj [("error", .jstr "Title is required")])), st)
      else
        match pyGet body "description" (.jstr "") with
        | .error e => (.error e, st)
        | .ok description =>
          let task_id := cfg.uuidGen st.uk
          let st1 : State1 := { st with uk := st.uk + 1 }
          let task : Task1 :=
            { id := task_id, title := title, description := description,
              status := "pending", created_at := cfg.clock st1.tk }
          let st2 : State1 := { st1 with
            tk := st1.tk + 1,
            tasks := dictInsert st1.tasks task_id task }
          (.ok (create_response 201 (.jobj
            [("message", .jstr "Task created successfully"),
             ("task", task1Json task)])), st2)

/-- get_task of the basic variant. -/
def get_task (st : State1) (task_id : Option String) : Response :=
  match task_id with
  | none => create_response 400 (.jobj [("error", .jstr "Task ID is required")])
  | some tid =>
    if tid = "" then create_response 400 (.jobj [("error", .jstr "Task ID is required")])
    else
      match jlookup1 st.tasks tid with
      | none => create_response 404 (.jobj [("error", .jstr "Task not found")])
      | some t => create_response 200 (.jobj [("task", task1Json t)])
where
  jlookup1 : List (String × Task1) → String → Option Task1
    | [], _ => none
    | (k, v) :: tl, key => if k = key then some v else jlookup1 tl key

/-- The routing chain of the basic-variant lambda_handler. -/
def route (cfg : Config1) (st : State1) (event : Event1) :
    (Except PyErr Response) × State1 :=
  if event.httpMethod = "GET" ∧ event.path = "/tasks" then
    (.ok (get_all_tasks st), st)
  else if event.httpMethod = "POST" ∧ event.path = "/tasks" then
    create_task cfg st event
  else if event.httpMethod = "GET" ∧ pyStartsWith event.path "/tasks/" then
    (.ok (get_task st (plookup event.pathParameters "id")), st)
  else
    (.ok (create_response 404 (.jobj [("error", .jstr "Not Found")])), st)

/-- lambda_handler of the basic variant: any raise becomes the plain 500
body, with no reporting. -/
def lambda_handler (cfg : Config1) (st : State1) (event : Event1) :
    (Except PyErr Response) × State1 :=
  match route cfg st event with
  | (.ok r, st1) => (.ok r, st1)
  | (.error _, st1) =>
      (.ok (create_response 500 (.jobj [("error", .jstr "Internal Server Error")])), st1)

/-- States reachable by any event sequence in the basic variant. -/
inductive Reach (cfg : Config1) : State1 → Prop where
  | init : Reach cfg initState
  | step (st : State1) (event : Event1) :
      Reach cfg st → Reach cfg (lambda_handler cfg st event).2

end O1

/-- The task value the success path of create_task constructs from the
normalized fields, the uuid draw and the two consecutive clock readings. -/
def createdTask (cfg : Config) (st : AppState) (title description priority : String) : Task :=
  { id := cfg.uuidGen st.uk, title := title, description := description,
    priority := priority, status := "pending",
    created_at := cfg.clock st.tk, updated_at := cfg.clock (st.tk + 1),
    environment := cfg.environment }

/-- The dead-letter message send_error_to_dlq builds when the endpoint is
configured, with the clock reading taken at entry. -/
def dlqMsg (cfg : Config) (st : AppState) (error : PyErr) (context : Ctx)
    (event : Event) (error_type : String) : DlqMessage :=
  { errorType := error_type, errorMessage := error, timestamp := cfg.clock st.tk,
    environment := cfg.environment,
    functionName := context.functionName.getD "unknown",
    requestId := context.awsRequestId.getD "unknown",
    eventMethod := event.httpMethod, eventPath := event.path,
    eventBody := event.body.raw,
    attrErrorType := error_type, attrEnvironment := cfg.environment }

/-- The store invariant carried through the reachability induction: the
keys of the store are the uuid draws of a duplicate-free set of indices
below the draw counter, and every entry is keyed by its own id and valid. -/
def StoreInv (cfg : Config) (st : AppState) : Prop :=
  ∃ is : List Nat, is.Nodup ∧ (∀ i ∈ is, i < st.uk) ∧
    st.tasks.map Prod.fst = is.map cfg.uuidGen ∧
    ∀ p ∈ st.tasks, p.2.id = p.1 ∧ ValidTask cfg p.2

/-- A concrete configuration for witnesses: DLQ configured, submissions
succeed, random never fails, and clock and uuid draws are distinct. -/
def cfgW : Config :=
  { environment := "dev", apiStage := "v1", dlqUrl := some "sqs-dlq-url",
    clock := fun n => String.mk ('T' :: List.replicate n 'x'),
    uuidGen := fun n => String.mk ('u' :: List.replicate n 'x'),
    randomFail := fun _ => false,
    sqsFail := fun _ => false }

/-- cfgW with the dead-letter endpoint unset. -/
def cfgNoDlq : Config := { cfgW with dlqUrl := none }

/-- cfgW with a clock frozen at one reading, so consecutive readings
coincide. -/
def cfgConstClock : Config := { cfgW with clock := fun _ => "T0" }

/-- cfgW with a queue client whose every submission raises. -/
def cfgSqsFail : Config := { cfgW with sqsFail := fun _ => true }

/-- A concrete lambda context. -/
def ctx0 : Ctx := { functionName := some "task-api", awsRequestId := some "req-1" }

/-- GET health probe event. -/
def evHealth : Event := { httpMethod := "GET", path := "/health", body := .absent }

/-- POST test-error event selecting the exception branch explicitly. -/
def evExc : Event :=
  { httpMethod := "POST", path := "/test/error",
    body := .parsed "raw-errorType-exception" (.jobj [("errorType", .jstr "exception")]) }

/-- POST test-error event selecting the dlq branch. -/
def evDlq : Event :=
  { httpMethod := "POST", path := "/test/error",
    body := .parsed "raw-errorType-dlq" (.jobj [("errorType", .jstr "dlq")]) }

/-- POST test-error event whose body carries no errorType field. -/
def evNoErrorType : Event :=
  { httpMethod := "POST", path := "/test/error", body := .parsed "raw-empty-object" (.jobj []) }

/-- POST test-error event with an unrecognized errorType value. -/
def evBadErrorType : Event :=
  { httpMethod := "POST", path := "/test/error",
    body := .parsed "raw-errorType-bogus" (.jobj [("errorType", .jstr "bogus")]) }

/-- POST tasks event whose body is not valid JSON text. -/
def evBadJson : Event :=
  { httpMethod := "POST", path := "/tasks", body := .invalid "this is not json" }

/-- A valid POST tasks event with a minimal title. -/
def ev7 : Event :=
  { httpMethod := "POST", path := "/tasks",
    body := .parsed "raw-title-t" (.jobj [("title", .jstr "t")]) }

/-- The task ev7 creates from the initial state under cfgW. -/
def task7 : Task :=
  { id := "u", title := "t", description := "", priority := "medium",
    status := "pending", created_at := "T", updated_at := "Tx",
    environment := "dev" }

/-- A 600-character description, exceeding the 500 bound. -/
def d600 : String := String.mk (List.replicate 600 'd')

/-- A POST tasks event violating the title, description and priority
rules at once. -/
def evAllBad : Event :=
  { httpMethod := "POST", path := "/tasks",
    body := .parsed "raw-all-bad" (.jobj
      [("title", .jstr "   "), ("description", .jstr d600),
       ("priority", .jstr "urgent")]) }

/-- A POST tasks event with surrounding whitespace and mixed case in every
field, for the normalization witness. -/
def evMessy : Event :=
  { httpMethod := "POST", path := "/tasks",
    body := .parsed "raw-messy" (.jobj
      [("title", .jstr "  My Task "), ("description", .jstr " some text  "),
       ("priority", .jstr " HIGH ")]) }

/-- A 101-character title, exceeding the 100 bound. -/
def t101 : String := String.mk (List.replicate 101 'a')

/-- Basic-variant configuration with distinct nonempty draws. -/
def o1cfg : O1.Config1 :=
  { clock := fun n => String.mk ('T' :: List.replicate n 'x'),
    uuidGen := fun n => String.mk ('u' :: List.replicate n 'x') }

/-- Basic-variant POST tasks event with the over-long title. -/
def ev9 : O1.Event1 :=
  { httpMethod := "POST", path := "/tasks", pathParameters := [],
    body := .parsed "raw-long-title" (.jobj [("title", .jstr t101)]) }

/-- The basic-variant task ev9 creates: the over-long title is stored. -/
def task9 : O1.Task1 :=
  { id := "u", title := .jstr t101, description := .jstr "",
    status := "pending", created_at := "T" }

/-- A request for a route no variant serves. -/
def ev6 : O1.Event1 :=
  { httpMethod := "DELETE", path := "/tasks", pathParameters := [], body := .absent }

/-- The basic-variant not-found response: a bare body, not an envelope. -/
def r6 : Response := O1.create_response 404 (.jobj [("error", .jstr "Not Found")])

theorem send_error_to_dlq_fst (cfg : Config) (st : AppState) (e : PyErr)
    (context : Ctx) (event : Event) (error_type : String) :
    (send_error_to_dlq cfg st e context event error_type).1 = Except.ok () := by
  unfold send_error_to_dlq utcnow
  split
  · rfl
  · dsimp only
    split <;> rfl

theorem send_error_to_dlq_eta (cfg : Config) (st : AppState) (e : PyErr)
    (context : Ctx) (event : Event) (error_type : String) :
    send_error_to_dlq cfg st e context event error_type =
      (Except.ok (), (send_error_to_dlq cfg st e context event error_type).2) := by
  have h := (Prod.mk.eta
    (p := send_error_to_dlq cfg st e context event error_type)).symm
  rwa [send_error_to_dlq_fst] at h

theorem send_error_to_dlq_tasks (cfg : Config) (st : AppState) (e : PyErr)
    (context : Ctx) (event : Event) (error_type : String) :
    ((send_error_to_dlq cfg st e context event error_type).2).tasks = st.tasks ∧
    ((send_error_to_dlq cfg st e context event error_type).2).uk = st.uk := by
  unfold send_error_to_dlq utcnow
  split
  · exact ⟨rfl, rfl⟩
  · dsimp only
    split <;> exact ⟨rfl, rfl⟩

/-- Claim C2: the Error Reporter never raises; with no configured queue
endpoint it only logs a warning and submits nothing, and a failing queue
submission is caught and logged without reaching the dead-letter list,
so in neither case can it disturb the caller. -/
theorem claim_C2_reporter_never_raises (cfg : Config) (st : AppState) (error : PyErr)
    (context : Ctx) (event : Event) (error_type : String) :
    (send_error_to_dlq cfg st error context event error_type).1 = Except.ok () ∧
    (cfg.dlqConfigured = false →
      send_error_to_dlq cfg st error context event error_type =
        (Except.ok (), { st with
          log := st.log ++ [.warn "DLQ_URL not configured, cannot send error to DLQ"] })) ∧
    (cfg.dlqConfigured = true → cfg.sqsFail st.sk = true →
      send_error_to_dlq cfg st error context event error_type =
        (Except.ok (), { st with
          tk := st.tk + 1, sk := st.sk + 1,
          log := st.log ++ [.err "Failed to send message to DLQ"] })) := by
  refine ⟨send_error_to_dlq_fst cfg st error context event error_type, ?_, ?_⟩
  · intro h
    unfold send_error_to_dlq
    rw [if_pos h]
  · intro h hf
    unfold send_error_to_dlq utcnow
    rw [if_neg (by simp [h])]
    dsimp only
    rw [if_pos hf]

theorem claim_C2_witness :
    (send_error_to_dlq cfgNoDlq initState "boom" ctx0 evHealth "unhandled_exception").1 =
      Except.ok () ∧
    send_error_to_dlq cfgNoDlq initState "boom" ctx0 evHealth "unhandled_exception" =
      (Except.ok (), { initState with
        log := initState.log ++ [.warn "DLQ_URL not configured, cannot send error to DLQ"] }) ∧
    send_error_to_dlq cfgSqsFail initState "boom" ctx0 evHealth "unhandled_exception" =
      (Except.ok (), { initState with
        tk := initState.tk + 1, sk := initState.sk + 1,
        log := initState.log ++ [.err "Failed to send message to DLQ"] }) :=
  ⟨(claim_C2_reporter_never_raises cfgNoDlq initState "boom" ctx0 evHealth "unhandled_exception").1,
   (claim_C2_reporter_never_raises cfgNoDlq initState "boom" ctx0 evHealth "unhandled_exception").2.1 rfl,
   (claim_C2_reporter_never_raises cfgSqsFail initState "boom" ctx0 evHealth "unhandled_exception").2.2 rfl rfl⟩

/-- Claim C1: whenever the routed handler raises, the boundary first runs
the Error Reporter with category unhandled_exception (which returns
normally), then answers with the fixed 500 INTERNAL_ERROR envelope whose
message is a constant independent of the exception. -/
theorem claim_C1_failure_boundary (cfg : Config) (st : AppState) (event : Event)
    (context : Ctx) (e : PyErr) (st1 : AppState)
    (h : route cfg (logRequest cfg st event) event = (.error e, st1)) :
    ∃ st2, send_error_to_dlq cfg st1 e context event "unhandled_exception" =
        (Except.ok (), st2) ∧
      ∃ r st3, create_error_response cfg
          { st2 with log := st2.log ++ [.err ("Unhandled error: " ++ e)] }
          500 "INTERNAL_ERROR" "Internal server error occurred" none = (r, st3) ∧
        lambda_handler cfg st event context = (.ok r, st3) ∧
        r.statusCode = 500 ∧
        ∃ ts, r.body = errorBody cfg "INTERNAL_ERROR" "Internal server error occurred" ts none := by
  refine ⟨(send_error_to_dlq cfg st1 e context event "unhandled_exception").2,
    send_error_to_dlq_eta cfg st1 e context event "unhandled_exception",
    _, _, rfl, ?_, rfl, _, rfl⟩
  simp only [lambda_handler]
  rw [h]
  dsimp only
  rw [send_error_to_dlq_eta cfg st1 e context event "unhandled_exception"]
  rfl

theorem claim_C1_witness :
    ∃ st2, send_error_to_dlq cfgW (logRequest cfgW initState evExc)
        "Test exception for DLQ testing" ctx0 evExc "unhandled_exception" =
        (Except.ok (), st2) ∧
      ∃ r st3, create_error_response cfgW
          { st2 with log := st2.log ++ [.err ("Unhandled error: " ++ "Test exception for DLQ testing")] }
          500 "INTERNAL_ERROR" "Internal server error occurred" none = (r, st3) ∧
        lambda_handler cfgW initState evExc ctx0 = (.ok r, st3) ∧
        r.statusCode = 500 ∧
        ∃ ts, r.body = errorBody cfgW "INTERNAL_ERROR" "Internal server error occurred" ts none :=
  claim_C1_failure_boundary cfgW initState evExc ctx0
    "Test exception for DLQ testing" (logRequest cfgW initState evExc) rfl

theorem route_post_tasks (cfg : Config) (st : AppState) (event : Event)
    (hm : event.httpMethod = "POST") (hp : event.path = "/tasks") :
    route cfg st event = create_task cfg st event := by
  unfold route
  rw [hm, hp]
  rw [if_neg (by decide), if_neg (by decide), if_pos (by decide)]

theorem route_post_test_error (cfg : Config) (st : AppState) (event : Event)
    (hm : event.httpMethod = "POST") (hp : event.path = "/test/error") :
    route cfg st event = test_error_handling cfg st event := by
  unfold route
  rw [hm, hp]
  rw [if_neg (by decide), if_neg (by decide), if_neg (by decide), if_pos (by decide)]

theorem lambda_handler_of_ok (cfg : Config) (st : AppState) (event : Event)
    (context : Ctx) (r : Response) (st' : AppState)
    (h : route cfg (logRequest cfg st event) event = (.ok r, st')) :
    lambda_handler cfg st event context = (.ok r, st') := by
  simp only [lambda_handler]
  rw [h]

theorem create_task_invalid_json (cfg : Config) (st : AppState) (event : Event)
    (raw : String) (hb : event.body = .invalid raw) :
    create_task cfg st event =
      (.ok { statusCode := 400, headers := baseHeaders cfg (cfg.clock st.tk),
             body := errorBody cfg "INVALID_JSON" "Request body must be valid JSON"
               (cfg.clock (st.tk + 1)) none },
       { st with tk := st.tk + 2 }) := by
  unfold create_task
  rw [hb]
  rfl

theorem create_task_validation_failed (cfg : Config) (st : AppState) (event : Event)
    (raw : String) (body : JValue) (title description pr : String)
    (hb : event.body = .parsed raw body)
    (ht : pyGetStrip body "title" "" = .ok title)
    (hd : pyGetStrip body "description" "" = .ok description)
    (hpr : pyGetStrip body "priority" "medium" = .ok pr)
    (hv : validation_errors title description (pyLower pr) ≠ []) :
    create_task cfg st event =
      (.ok { statusCode := 400, headers := baseHeaders cfg (cfg.clock st.tk),
             body := errorBody cfg "VALIDATION_ERROR" "Validation failed"
               (cfg.clock (st.tk + 1))
               (some (.jobj [("errors",
                 .jarr ((validation_errors title description (pyLower pr)).map JValue.jstr))])) },
       { st with tk := st.tk + 2 }) := by
  unfold create_task
  rw [hb]
  dsimp only [loads]
  rw [ht]
  dsimp only
  rw [hd]
  dsimp only
  rw [hpr]
  dsimp only
  rw [if_pos hv]
  rfl

theorem create_task_success (cfg : Config) (st : AppState) (event : Event)
    (raw : String) (body : JValue) (title description pr : String)
    (hb : event.body = .parsed raw body)
    (ht : pyGetStrip body "title" "" = .ok title)
    (hd : pyGetStrip body "description" "" = .ok description)
    (hpr : pyGetStrip body "priority" "medium" = .ok pr)
    (hv : validation_errors title description (pyLower pr) = []) :
    create_task cfg st event =
      (.ok { statusCode := 201, headers := baseHeaders cfg (cfg.clock (st.tk + 2)),
             body := successBody cfg
               (.jobj [("message", .jstr "Task created successfully"),
                       ("task", taskJson (createdTask cfg st title description (pyLower pr)))])
               (cfg.clock (st.tk + 3)) },
       { st with
         tasks := dictInsert st.tasks (cfg.uuidGen st.uk)
           (createdTask cfg st title description (pyLower pr)),
         log := st.log ++ [.info ("Task created: " ++ cfg.uuidGen st.uk)],
         tk := st.tk + 4, uk := st.uk + 1 }) := by
  unfold create_task
  rw [hb]
  dsimp only [loads]
  rw [ht]
  dsimp only
  rw [hd]
  dsimp only
  rw [hpr]
  dsimp only
  rw [if_neg (by simp [hv])]
  rfl

/-- Claim C5: a POST tasks request whose body is not valid JSON text gets
the 400 INVALID_JSON client-error outcome (not the 500 internal path) and
leaves the task store unchanged. -/
theorem claim_C5_invalid_json (cfg : Config) (st : AppState) (event : Event)
    (context : Ctx) (raw : String)
    (hm : event.httpMethod = "POST") (hp : event.path = "/tasks")
    (hb : event.body = .invalid raw) :
    ∃ r st', lambda_handler cfg st event context = (.ok r, st') ∧
      r.statusCode = 400 ∧
      (∃ ts, r.body = errorBody cfg "INVALID_JSON" "Request body must be valid JSON" ts none) ∧
      st'.tasks = st.tasks := by
  have h1 := route_post_tasks cfg (logRequest cfg st event) event hm hp
  have h2 := create_task_invalid_json cfg (logRequest cfg st event) event raw hb
  exact ⟨_, _, lambda_handler_of_ok cfg st event context _ _ (h1.trans h2), rfl, ⟨_, rfl⟩, rfl⟩

theorem claim_C5_witness :
    ∃ r st', lambda_handler cfgW initState evBadJson ctx0 = (.ok r, st') ∧
      r.statusCode = 400 ∧
      (∃ ts, r.body = errorBody cfgW "INVALID_JSON" "Request body must be valid JSON" ts none) ∧
      st'.tasks = initState.tasks :=
  claim_C5_invalid_json cfgW initState evBadJson ctx0 "this is not json" rfl rfl rfl

/-- Claim C3: the violation list is the concatenation of the three rule
segments in the fixed source order, so simultaneous violations all appear
together, and any non-empty list produces the 400 VALIDATION_ERROR
envelope with message Validation failed and details carrying the list. -/
theorem claim_C3_validation_collects (cfg : Config) (st : AppState) (event : Event)
    (context : Ctx) (raw : String) (body : JValue) (title description pr : String)
    (hm : event.httpMethod = "POST") (hp : event.path = "/tasks")
    (hb : event.body = .parsed raw body)
    (ht : pyGetStrip body "title" "" = .ok title)
    (hd : pyGetStrip body "description" "" = .ok description)
    (hpr : pyGetStrip body "priority" "medium" = .ok pr)
    (hne : validation_errors title description (pyLower pr) ≠ []) :
    validation_errors title description (pyLower pr) =
      titleErrors title ++ descriptionErrors description ++ priorityErrors (pyLower pr) ∧
    ∃ r st', lambda_handler cfg st event context = (.ok r, st') ∧
      r.statusCode = 400 ∧
      (∃ ts, r.body = errorBody cfg "VALIDATION_ERROR" "Validation failed" ts
        (some (.jobj [("errors",
          .jarr ((validation_errors title description (pyLower pr)).map JValue.jstr))]))) ∧
      st'.tasks = st.tasks := by
  have h1 := route_post_tasks cfg (logRequest cfg st event) event hm hp
  have h2 := create_task_validation_failed cfg (logRequest cfg st event) event raw body
    title description pr hb ht hd hpr hne
  exact ⟨rfl, _, _, lambda_handler_of_ok cfg st event context _ _ (h1.trans h2), rfl,
    ⟨_, rfl⟩, rfl⟩

theorem claim_C3_witness :
    (validation_errors "" d600 "urgent" =
      titleErrors "" ++ descriptionErrors d600 ++ priorityErrors "urgent" ∧
    ∃ r st', lambda_handler cfgW initState evAllBad ctx0 = (.ok r, st') ∧
      r.statusCode = 400 ∧
      (∃ ts, r.body = errorBody cfgW "VALIDATION_ERROR" "Validation failed" ts
        (some (.jobj [("errors",
          .jarr ((validation_errors "" d600 "urgent").map JValue.jstr))]))) ∧
      st'.tasks = initState.tasks) ∧
    validation_errors "" d600 "urgent" =
      ["Title is required", "Description must be 500 characters or less",
       "Priority must be low, medium, or high"] :=
  ⟨claim_C3_validation_collects cfgW initState evAllBad ctx0 "raw-all-bad"
      (.jobj [("title", .jstr "   "), ("description", .jstr d600),
              ("priority", .jstr "urgent")]) "" d600 "urgent"
      rfl rfl rfl rfl rfl rfl (by decide),
   by decide⟩

/-- Claim C7 (amended): created_at and updated_at are both set during the
create operation, from the two consecutive clock readings the code takes;
they are equal exactly when those two readings coincide, which the code
itself does not force. -/
theorem claim_C7_creation_timestamps (cfg : Config) (st : AppState) (event : Event)
    (raw : String) (body : JValue) (title description pr : String)
    (hb : event.body = .parsed raw body)
    (ht : pyGetStrip body "title" "" = .ok title)
    (hd : pyGetStrip body "description" "" = .ok description)
    (hpr : pyGetStrip body "priority" "medium" = .ok pr)
    (hv : validation_errors title description (pyLower pr) = []) :
    ∃ r st', create_task cfg st event = (.ok r, st') ∧
      st'.tasks = dictInsert st.tasks (cfg.uuidGen st.uk)
        (createdTask cfg st title description (pyLower pr)) ∧
      (createdTask cfg st title description (pyLower pr)).created_at = cfg.clock st.tk ∧
      (createdTask cfg st title description (pyLower pr)).updated_at = cfg.clock (st.tk + 1) ∧
      (cfg.clock st.tk = cfg.clock (st.tk + 1) →
        (createdTask cfg st title description (pyLower pr)).created_at =
          (createdTask cfg st title description (pyLower pr)).updated_at) := by
  refine ⟨_, _, create_task_success cfg st event raw body title description pr
    hb ht hd hpr hv, rfl, rfl, rfl, fun h => h⟩

theorem claim_C7_witness :
    ∃ r st', create_task cfgConstClock initState ev7 = (.ok r, st') ∧
      st'.tasks = dictInsert initState.tasks (cfgConstClock.uuidGen initState.uk)
        (createdTask cfgConstClock initState "t" "" "medium") ∧
      (createdTask cfgConstClock initState "t" "" "medium").created_at =
        cfgConstClock.clock initState.tk ∧
      (createdTask cfgConstClock initState "t" "" "medium").updated_at =
        cfgConstClock.clock (initState.tk + 1) ∧
      (cfgConstClock.clock initState.tk = cfgConstClock.clock (initState.tk + 1) →
        (createdTask cfgConstClock initState "t" "" "medium").created_at =
          (createdTask cfgConstClock initState "t" "" "medium").updated_at) :=
  claim_C7_creation_timestamps cfgConstClock initState ev7 "raw-title-t"
    (.jobj [("title", .jstr "t")]) "t" "" "medium" rfl rfl rfl rfl rfl

/-- Claim C7 counterexample: the code reads the clock once for created_at
and again for updated_at, so with two consecutive readings that differ a
successfully created task has updated_at different from created_at. -/
theorem claim_C7_counterexample :
    (∃ r, (create_task cfgW initState ev7).1 = .ok r ∧ r.statusCode = 201) ∧
    ((create_task cfgW initState ev7).2).tasks = [("u", task7)] ∧
    task7.created_at ≠ task7.updated_at :=
  ⟨⟨_, rfl, rfl⟩, rfl, by decide⟩

/-- Claim C10: a successfully created task stores and returns the
normalized field values: trimmed title and description, and the trimmed
lower-cased priority defaulting to medium when the field is absent. -/
theorem claim_C10_normalized_fields (cfg : Config) (st : AppState) (event : Event)
    (context : Ctx) (raw : String) (fields : List (String × JValue))
    (rawTitle rawDescription : String) (rawPriority : Option String)
    (hm : event.httpMethod = "POST") (hp : event.path = "/tasks")
    (hb : event.body = .parsed raw (.jobj fields))
    (ht : jlookup fields "title" = some (.jstr rawTitle))
    (hd : jlookup fields "description" = some (.jstr rawDescription))
    (hpr : jlookup fields "priority" = rawPriority.map JValue.jstr)
    (hv : validation_errors (pyStrip rawTitle) (pyStrip rawDescription)
        (pyLower (pyStrip (rawPriority.getD "medium"))) = []) :
    ∃ r st' t, lambda_handler cfg st event context = (.ok r, st') ∧
      st'.tasks = dictInsert st.tasks (cfg.uuidGen st.uk) t ∧
      t.title = pyStrip rawTitle ∧
      t.description = pyStrip rawDescription ∧
      t.priority = pyLower (pyStrip (rawPriority.getD "medium")) ∧
      r.statusCode = 201 ∧
      ∃ ts, r.body = successBody cfg
        (.jobj [("message", .jstr "Task created successfully"), ("task", taskJson t)]) ts := by
  have ht' : pyGetStrip (.jobj fields) "title" "" = .ok (pyStrip rawTitle) := by
    simp [pyGetStrip, pyGet, ht, pyStripVal]
  have hd' : pyGetStrip (.jobj fields) "description" "" = .ok (pyStrip rawDescription) := by
    simp [pyGetStrip, pyGet, hd, pyStripVal]
  have hpr' : pyGetStrip (.jobj fields) "priority" "medium" =
      .ok (pyStrip (rawPriority.getD "medium")) := by
    cases rawPriority <;> simp [pyGetStrip, pyGet, hpr, pyStripVal]
  have h1 := route_post_tasks cfg (logRequest cfg st event) event hm hp
  have h2 := create_task_success cfg (logRequest cfg st event) event raw (.jobj fields)
    (pyStrip rawTitle) (pyStrip rawDescription) (pyStrip (rawPriority.getD "medium"))
    hb ht' hd' hpr' hv
  exact ⟨_, _, _, lambda_handler_of_ok cfg st event context _ _ (h1.trans h2),
    rfl, rfl, rfl, rfl, rfl, _, rfl⟩

theorem claim_C10_witness :
    ∃ r st' t, lambda_handler cfgW initState evMessy ctx0 = (.ok r, st') ∧
      st'.tasks = dictInsert initState.tasks (cfgW.uuidGen initState.uk) t ∧
      t.title = pyStrip "  My Task " ∧
      t.description = pyStrip " some text  " ∧
      t.priority = pyLower (pyStrip ((some " HIGH ").getD "medium")) ∧
      r.statusCode = 201 ∧
      ∃ ts, r.body = successBody cfgW
        (.jobj [("message", .jstr "Task created successfully"), ("task", taskJson t)]) ts :=
  claim_C10_normalized_fields cfgW initState evMessy ctx0 "raw-messy"
    [("title", .jstr "  My Task "), ("description", .jstr " some text  "),
     ("priority", .jstr " HIGH ")]
    "  My Task " " some text  " (some " HIGH ")
    rfl rfl rfl rfl rfl rfl rfl

theorem jeqStr_eq_true_iff (v : JValue) (s : String) : jeqStr v s = true ↔ v = .jstr s := by
  cases v <;> simp [jeqStr]

theorem test_error_handling_unknown (cfg : Config) (st : AppState) (event : Event)
    (raw : String) (fields : List (String × JValue)) (v : JValue)
    (hb : event.body = .parsed raw (.jobj fields))
    (hv : jlookup fields "errorType" = some v)
    (h1 : v ≠ .jstr "exception") (h2 : v ≠ .jstr "dlq") (h3 : v ≠ .jstr "random") :
    test_error_handling cfg st event =
      (.ok { statusCode := 400, headers := baseHeaders cfg (cfg.clock st.tk),
             body := errorBody cfg "INVALID_ERROR_TYPE"
               "errorType must be: exception, dlq, or random" (cfg.clock (st.tk + 1)) none },
       { st with tk := st.tk + 2 }) := by
  unfold test_error_handling
  rw [hb]
  dsimp only [loads]
  rw [show pyGet (.jobj fields) "errorType" (.jstr "exception") = .ok v by simp [pyGet, hv]]
  dsimp only
  rw [if_neg (fun hh => h1 ((jeqStr_eq_true_iff v "exception").mp hh)),
      if_neg (fun hh => h2 ((jeqStr_eq_true_iff v "dlq").mp hh)),
      if_neg (fun hh => h3 ((jeqStr_eq_true_iff v "random").mp hh))]
  rfl

/-- Claim C4 (amended): a POST test-error request whose JSON object body
carries an errorType value different from the three recognized strings is
answered with 400 INVALID_ERROR_TYPE; an absent errorType instead defaults
to the exception branch (see the counterexample). -/
theorem claim_C4_invalid_error_type (cfg : Config) (st : AppState) (event : Event)
    (context : Ctx) (raw : String) (fields : List (String × JValue)) (v : JValue)
    (hm : event.httpMethod = "POST") (hp : event.path = "/test/error")
    (hb : event.body = .parsed raw (.jobj fields))
    (hv : jlookup fields "errorType" = some v)
    (h1 : v ≠ .jstr "exception") (h2 : v ≠ .jstr "dlq") (h3 : v ≠ .jstr "random") :
    ∃ r st', lambda_handler cfg st event context = (.ok r, st') ∧
      r.statusCode = 400 ∧
      ∃ ts, r.body = errorBody cfg "INVALID_ERROR_TYPE"
        "errorType must be: exception, dlq, or random" ts none := by
  have hroute := route_post_test_error cfg (logRequest cfg st event) event hm hp
  have hteh := test_error_handling_unknown cfg (logRequest cfg st event) event raw fields v
    hb hv h1 h2 h3
  exact ⟨_, _, lambda_handler_of_ok cfg st event context _ _ (hroute.trans hteh), rfl, _, rfl⟩

theorem claim_C4_witness :
    ∃ r st', lambda_handler cfgW initState evBadErrorType ctx0 = (.ok r, st') ∧
      r.statusCode = 400 ∧
      ∃ ts, r.body = errorBody cfgW "INVALID_ERROR_TYPE"
        "errorType must be: exception, dlq, or random" ts none :=
  claim_C4_invalid_error_type cfgW initState evBadErrorType ctx0 "raw-errorType-bogus"
    [("errorType", .jstr "bogus")] (.jstr "bogus")
    rfl rfl rfl rfl (by simp) (by simp) (by simp)

/-- Claim C4 counterexample: a POST test-error request whose body carries
no errorType field is answered with status 500 (the absent field defaults
to the exception branch), not with the claimed 400 INVALID_ERROR_TYPE. -/
theorem claim_C4_counterexample :
    ∃ r, (lambda_handler cfgNoDlq initState evNoErrorType ctx0).1 = .ok r ∧
      r.statusCode = 500 ∧ r.statusCode ≠ 400 :=
  ⟨_, rfl, rfl, by decide⟩

theorem send_error_to_dlq_delivered (cfg : Config) (st : AppState) (e : PyErr)
    (context : Ctx) (event : Event) (error_type : String)
    (hcfg : cfg.dlqConfigured = true) (hsqs : cfg.sqsFail st.sk = false) :
    send_error_to_dlq cfg st e context event error_type =
      (.ok (), { st with
        tk := st.tk + 1, sk := st.sk + 1,
        dlq := st.dlq ++ [dlqMsg cfg st e context event error_type],
        log := st.log ++ [.info ("Error sent to DLQ: " ++ error_type)] }) := by
  unfold send_error_to_dlq utcnow
  rw [if_neg (by simp [hcfg])]
  dsimp only
  rw [if_neg (by simp [hsqs])]
  rfl

/-- Claim C8: a POST test-error request with errorType exception always
gets status 500 and exactly one dead-letter submission tagged
unhandled_exception; with errorType dlq the handler returns normally,
the status is 200, and exactly one submission tagged manual_dlq_test
occurs (stated under a configured endpoint and a succeeding queue client,
since a submission can only happen then). -/
theorem claim_C8_diagnostic_trigger (cfg : Config) (st : AppState) (event : Event)
    (context : Ctx) (raw : String) (fields : List (String × JValue))
    (hm : event.httpMethod = "POST") (hp : event.path = "/test/error")
    (hb : event.body = .parsed raw (.jobj fields))
    (hcfg : cfg.dlqConfigured = true) (hsqs : cfg.sqsFail st.sk = false) :
    (jlookup fields "errorType" = some (.jstr "exception") →
      ∃ r st', lambda_handler cfg st event context = (.ok r, st') ∧
        r.statusCode = 500 ∧
        ∃ m, st'.dlq = st.dlq ++ [m] ∧ m.errorType = "unhandled_exception" ∧
          m.attrErrorType = "unhandled_exception") ∧
    (jlookup fields "errorType" = some (.jstr "dlq") →
      ∃ r st0', test_error_handling cfg (logRequest cfg st event) event = (.ok r, st0') ∧
        ∃ st', lambda_handler cfg st event context = (.ok r, st') ∧
          r.statusCode = 200 ∧
          ∃ m, st'.dlq = st.dlq ++ [m] ∧ m.errorType = "manual_dlq_test" ∧
            m.attrErrorType = "manual_dlq_test") := by
  constructor
  · intro hv
    have hteh : test_error_handling cfg (logRequest cfg st event) event =
        (.error "Test exception for DLQ testing", logRequest cfg st event) := by
      unfold test_error_handling
      rw [hb]
      dsimp only [loads]
      rw [show pyGet (.jobj fields) "errorType" (.jstr "exception") = .ok (.jstr "exception")
        by simp [pyGet, hv]]
      dsimp only
      rw [if_pos (by simp [jeqStr])]
    have hroute := (route_post_test_error cfg (logRequest cfg st event) event hm hp).trans hteh
    have hlam : lambda_handler cfg st event context =
        (.ok { statusCode := 500,
               headers := baseHeaders cfg (cfg.clock (st.tk + 1)),
               body := errorBody cfg "INTERNAL_ERROR" "Internal server error occurred"
                 (cfg.clock (st.tk + 2)) none },
         { (logRequest cfg st event) with
           tk := st.tk + 3, sk := st.sk + 1,
           dlq := st.dlq ++ [dlqMsg cfg (logRequest cfg st event)
             "Test exception for DLQ testing" context event "unhandled_exception"],
           log := ((logRequest cfg st event).log ++
             [.info ("Error sent to DLQ: " ++ "unhandled_exception")]) ++
             [.err ("Unhandled error: " ++ "Test exception for DLQ testing")] }) := by
      simp only [lambda_handler]
      rw [hroute]
      dsimp only
      rw [send_error_to_dlq_delivered cfg (logRequest cfg st event)
        "Test exception for DLQ testing" context event "unhandled_exception" hcfg hsqs]
      rfl
    exact ⟨_, _, hlam, rfl,
      dlqMsg cfg (logRequest cfg st event) "Test exception for DLQ testing" context event
        "unhandled_exception", rfl, rfl, rfl⟩
  · intro hv
    have hteh : test_error_handling cfg (logRequest cfg st event) event =
        (.ok { statusCode := 200,
               headers := baseHeaders cfg (cfg.clock (st.tk + 1)),
               body := successBody cfg
                 (.jobj [("message", .jstr "Test message sent to DLQ"),
                         ("dlq_url", match cfg.dlqUrl with
                                     | none => .jnull
                                     | some u => .jstr u)])
                 (cfg.clock (st.tk + 2)) },
         { (logRequest cfg st event) with
           tk := st.tk + 3, sk := st.sk + 1,
           dlq := st.dlq ++ [dlqMsg cfg (logRequest cfg st event) "Manual DLQ test" dictCtx
             event "manual_dlq_test"],
           log := (logRequest cfg st event).log ++
             [.info ("Error sent to DLQ: " ++ "manual_dlq_test")] }) := by
      unfold test_error_handling
      rw [hb]
      dsimp only [loads]
      rw [show pyGet (.jobj fields) "errorType" (.jstr "exception") = .ok (.jstr "dlq")
        by simp [pyGet, hv]]
      dsimp only
      rw [if_neg (by simp [jeqStr]), if_pos (by simp [jeqStr])]
      rw [send_error_to_dlq_delivered cfg (logRequest cfg st event) "Manual DLQ test" dictCtx
        event "manual_dlq_test" hcfg hsqs]
      rfl
    have hroute := (route_post_test_error cfg (logRequest cfg st event) event hm hp).trans hteh
    exact ⟨_, _, hteh, _, lambda_handler_of_ok cfg st event context _ _ hroute, rfl,
      dlqMsg cfg (logRequest cfg st event) "Manual DLQ test" dictCtx event "manual_dlq_test",
      rfl, rfl, rfl⟩

theorem claim_C8_witness :
    (∃ r st', lambda_handler cfgW initState evExc ctx0 = (.ok r, st') ∧
      r.statusCode = 500 ∧
      ∃ m, st'.dlq = initState.dlq ++ [m] ∧ m.errorType = "unhandled_exception" ∧
        m.attrErrorType = "unhandled_exception") ∧
    (∃ r st0', test_error_handling cfgW (logRequest cfgW initState evDlq) evDlq = (.ok r, st0') ∧
      ∃ st', lambda_handler cfgW initState evDlq ctx0 = (.ok r, st') ∧
        r.statusCode = 200 ∧
        ∃ m, st'.dlq = initState.dlq ++ [m] ∧ m.errorType = "manual_dlq_test" ∧
          m.attrErrorType = "manual_dlq_test") :=
  ⟨(claim_C8_diagnostic_trigger cfgW initState evExc ctx0 "raw-errorType-exception"
      [("errorType", .jstr "exception")] rfl rfl rfl (by decide) rfl).1 rfl,
   (claim_C8_diagnostic_trigger cfgW initState evDlq ctx0 "raw-errorType-dlq"
      [("errorType", .jstr "dlq")] rfl rfl rfl (by decide) rfl).2 rfl⟩

theorem successBody_ne_errorBody (cfg cfg2 : Config) (d : JValue) (ts c m ts2 : String)
    (dt : Option JValue) : successBody cfg d ts ≠ errorBody cfg2 c m ts2 dt := by
  simp [successBody, errorBody]

theorem create_success_response_env (cfg : Config) (st : AppState) (c : Nat) (d : JValue) :
    Enveloped cfg (create_success_response cfg st c d).1 :=
  Or.inl ⟨d, cfg.clock (st.tk + 1), rfl⟩

theorem create_error_response_env (cfg : Config) (st : AppState) (c : Nat)
    (code m : String) (dt : Option JValue) :
    Enveloped cfg (create_error_response cfg st c code m dt).1 :=
  Or.inr ⟨code, m, cfg.clock (st.tk + 1), dt, rfl⟩

theorem create_task_ok_env (cfg : Config) (st : AppState) (event : Event)
    (r : Response) (st' : AppState)
    (h : create_task cfg st event = (.ok r, st')) : Enveloped cfg r := by
  simp only [create_task, utcnow, freshUuid, create_error_response,
    create_success_response] at h
  repeat' split at h
  all_goals first
    | exact Except.noConfusion (congrArg Prod.fst h)
    | exact Or.inl ⟨_, _,
        (congrArg Response.body (Except.ok.inj (congrArg Prod.fst h))).symm⟩
    | exact Or.inr ⟨_, _, _, _,
        (congrArg Response.body (Except.ok.inj (congrArg Prod.fst h))).symm⟩

theorem test_error_handling_ok_env (cfg : Config) (st : AppState) (event : Event)
    (r : Response) (st' : AppState)
    (h : test_error_handling cfg st event = (.ok r, st')) : Enveloped cfg r := by
  simp only [test_error_handling, utcnow, drawRandom, create_error_response,
    create_success_response] at h
  repeat' split at h
  all_goals first
    | exact Except.noConfusion (congrArg Prod.fst h)
    | exact Or.inl ⟨_, _,
        (congrArg Response.body (Except.ok.inj (congrArg Prod.fst h))).symm⟩
    | exact Or.inr ⟨_, _, _, _,
        (congrArg Response.body (Except.ok.inj (congrArg Prod.fst h))).symm⟩

theorem route_ok_env (cfg : Config) (st : AppState) (event : Event)
    (r : Response) (st' : AppState)
    (h : route cfg st event = (.ok r, st')) : Enveloped cfg r := by
  unfold route at h
  split at h
  · exact Or.inl ⟨_, _,
      (congrArg Response.body (Except.ok.inj (congrArg Prod.fst h))).symm⟩
  · split at h
    · exact Or.inl ⟨_, _,
        (congrArg Response.body (Except.ok.inj (congrArg Prod.fst h))).symm⟩
    · split at h
      · exact create_task_ok_env cfg st event r st' h
      · split at h
        · exact test_error_handling_ok_env cfg st event r st' h
        · exact Or.inr ⟨_, _, _, _,
            (congrArg Response.body (Except.ok.inj (congrArg Prod.fst h))).symm⟩

theorem lambda_handler_ok_env (cfg : Config) (st : AppState) (event : Event)
    (context : Ctx) (r : Response) (st' : AppState)
    (h : lambda_handler cfg st event context = (.ok r, st')) : Enveloped cfg r := by
  simp only [lambda_handler] at h
  split at h
  · next r1 st1 heq =>
    exact route_ok_env cfg (logRequest cfg st event) event r st' (heq.trans h)
  · next e st1 heq =>
    split at h
    · exact absurd (congrArg Prod.fst h) (by simp)
    · exact Or.inr ⟨_, _, _, _,
        (congrArg Response.body (Except.ok.inj (congrArg Prod.fst h))).symm⟩

/-- Claim C6 (amended, extended variant): every response the extended
handler returns is exactly one of the two envelope variants, and both
variants carry the environment and stage of the active configuration
(inside successBody and errorBody); the basic variant emits bare bodies
instead (see the counterexample). -/
theorem claim_C6_envelope_shape (cfg : Config) (st : AppState) (event : Event)
    (context : Ctx) (r : Response) (st' : AppState)
    (h : lambda_handler cfg st event context = (.ok r, st')) :
    (∃ d ts, r.body = successBody cfg d ts ∧
      ∀ c m ts2 dt, r.body ≠ errorBody cfg c m ts2 dt) ∨
    (∃ c m ts dt, r.body = errorBody cfg c m ts dt ∧
      ∀ d ts2, r.body ≠ successBody cfg d ts2) := by
  rcases lambda_handler_ok_env cfg st event context r st' h with ⟨d, ts, hbody⟩ | ⟨c, m, ts, dt, hbody⟩
  · exact Or.inl ⟨d, ts, hbody, fun c m ts2 dt =>
      hbody ▸ successBody_ne_errorBody cfg cfg d ts c m ts2 dt⟩
  · exact Or.inr ⟨c, m, ts, dt, hbody, fun d ts2 =>
      hbody ▸ (successBody_ne_errorBody cfg cfg d ts2 c m ts dt).symm⟩

theorem claim_C6_witness :
    ∃ r st', lambda_handler cfgW initState evHealth ctx0 = (.ok r, st') ∧
      ((∃ d ts, r.body = successBody cfgW d ts ∧
        ∀ c m ts2 dt, r.body ≠ errorBody cfgW c m ts2 dt) ∨
      (∃ c m ts dt, r.body = errorBody cfgW c m ts dt ∧
        ∀ d ts2, r.body ≠ successBody cfgW d ts2)) :=
  ⟨_, _, rfl, claim_C6_envelope_shape cfgW initState evHealth ctx0 _ _ rfl⟩

/-- Claim C6 counterexample: the basic variant answers an unknown route
with the bare Not Found body, which is neither envelope variant and
carries no environment or stage metadata. -/
theorem claim_C6_counterexample :
    (O1.lambda_handler o1cfg O1.initState ev6).1 = .ok r6 ∧
    r6.body = .jobj [("error", .jstr "Not Found")] ∧
    ¬ Enveloped cfgW r6 := by
  refine ⟨rfl, rfl, ?_⟩
  rintro (⟨d, ts, hbody⟩ | ⟨c, m, ts, dt, hbody⟩) <;>
    simp [r6, O1.create_response, successBody, errorBody] at hbody

/-- Claim C9 counterexample: the basic variant accepts a creation request
whose title is 101 characters long and stores it, so in that variant the
store holds a task violating the claimed title bound. -/
theorem claim_C9_counterexample :
    O1.Reach o1cfg (O1.lambda_handler o1cfg O1.initState ev9).2 ∧
    ((O1.lambda_handler o1cfg O1.initState ev9).2).tasks = [("u", task9)] ∧
    task9.title = .jstr t101 ∧ 100 < t101.length :=
  ⟨O1.Reach.step O1.initState ev9 O1.Reach.init, rfl, rfl, by decide⟩

theorem titleErrors_nil (t : String) (h : titleErrors t = []) : t ≠ "" ∧ t.length ≤ 100 := by
  unfold titleErrors at h
  split_ifs at h with h1 h2
  exact ⟨h1, by omega⟩

theorem descriptionErrors_nil (d : String) (h : descriptionErrors d = []) :
    d.length ≤ 500 := by
  unfold descriptionErrors at h
  split_ifs at h with h1
  omega

theorem priorityErrors_nil (p : String) (h : priorityErrors p = []) :
    p ∈ (["low", "medium", "high"] : List String) := by
  unfold priorityErrors at h
  split_ifs at h with h1
  exact h1

theorem validation_nil_valid (cfg : Config) (st : AppState)
    (title description priority : String)
    (hv : validation_errors title description priority = []) :
    ValidTask cfg (createdTask cfg st title description priority) := by
  unfold validation_errors at hv
  obtain ⟨h1, h2, h3⟩ : titleErrors title = [] ∧ descriptionErrors description = [] ∧
      priorityErrors priority = [] := by
    simpa [List.append_eq_nil] using hv
  obtain ⟨ht1, ht2⟩ := titleErrors_nil title h1
  exact ⟨ht1, ht2, descriptionErrors_nil description h2, priorityErrors_nil priority h3,
    rfl, rfl⟩

theorem dictInsert_fresh {α : Type} (l : List (String × α)) (k : String) (v : α)
    (hk : k ∉ l.map Prod.fst) : dictInsert l k v = l ++ [(k, v)] := by
  induction l with
  | nil => rfl
  | cons hd tl ih =>
    obtain ⟨k2, v2⟩ := hd
    simp only [List.map_cons, List.mem_cons, not_or] at hk
    obtain ⟨h1, h2⟩ := hk
    simp only [dictInsert]
    rw [if_neg (fun he => h1 he.symm), ih h2]
    rfl

theorem test_error_handling_state (cfg : Config) (st : AppState) (event : Event) :
    ((test_error_handling cfg st event).2).tasks = st.tasks ∧
    ((test_error_handling cfg st event).2).uk = st.uk := by
  simp only [test_error_handling, utcnow, drawRandom, create_error_response,
    create_success_response]
  rw [send_error_to_dlq_eta cfg st "Manual DLQ test" dictCtx event "manual_dlq_test"]
  dsimp only
  repeat' split
  all_goals first
    | exact ⟨rfl, rfl⟩
    | exact ⟨(send_error_to_dlq_tasks cfg st "Manual DLQ test" dictCtx event "manual_dlq_test").1,
             (send_error_to_dlq_tasks cfg st "Manual DLQ test" dictCtx event "manual_dlq_test").2⟩

theorem create_task_cases (cfg : Config) (st : AppState) (event : Event) :
    (((create_task cfg st event).2).tasks = st.tasks ∧
     ((create_task cfg st event).2).uk = st.uk) ∨
    (∃ t : Task, t.id = cfg.uuidGen st.uk ∧ ValidTask cfg t ∧
      ((create_task cfg st event).2).tasks = dictInsert st.tasks (cfg.uuidGen st.uk) t ∧
      ((create_task cfg st event).2).uk = st.uk + 1) := by
  simp only [create_task, utcnow, freshUuid, create_error_response, create_success_response]
  repeat' split
  all_goals try exact Or.inl ⟨rfl, rfl⟩
  all_goals rename_i hvne
  all_goals exact Or.inr ⟨_, rfl,
    validation_nil_valid cfg st _ _ _ (not_ne_iff.mp hvne), rfl, rfl⟩

theorem route_cases (cfg : Config) (st : AppState) (event : Event) :
    (((route cfg st event).2).tasks = st.tasks ∧ ((route cfg st event).2).uk = st.uk) ∨
    (∃ t : Task, t.id = cfg.uuidGen st.uk ∧ ValidTask cfg t ∧
      ((route cfg st event).2).tasks = dictInsert st.tasks (cfg.uuidGen st.uk) t ∧
      ((route cfg st event).2).uk = st.uk + 1) := by
  unfold route
  split
  · exact Or.inl ⟨rfl, rfl⟩
  · split
    · exact Or.inl ⟨rfl, rfl⟩
    · split
      · exact create_task_cases cfg st event
      · split
        · exact Or.inl (test_error_handling_state cfg st event)
        · exact Or.inl ⟨rfl, rfl⟩

theorem lambda_handler_cases (cfg : Config) (st : AppState) (event : Event) (context : Ctx) :
    (((lambda_handler cfg st event context).2).tasks = st.tasks ∧
     ((lambda_handler cfg st event context).2).uk = st.uk) ∨
    (∃ t : Task, t.id = cfg.uuidGen st.uk ∧ ValidTask cfg t ∧
      ((lambda_handler cfg st event context).2).tasks =
        dictInsert st.tasks (cfg.uuidGen st.uk) t ∧
      ((lambda_handler cfg st event context).2).uk = st.uk + 1) := by
  have hr := route_cases cfg (logRequest cfg st event) event
  simp only [lambda_handler]
  split
  · next r1 st1 heq =>
    rw [heq] at hr
    exact hr
  · next e st1 heq =>
    rw [heq] at hr
    rw [send_error_to_dlq_eta cfg st1 e context event "unhandled_exception"]
    have hs := send_error_to_dlq_tasks cfg st1 e context event "unhandled_exception"
    rcases hr with ⟨h1, h2⟩ | ⟨t, hid, hvt, h1, h2⟩
    · exact Or.inl ⟨hs.1.trans h1, hs.2.trans h2⟩
    · exact Or.inr ⟨t, hid, hvt, hs.1.trans h1, hs.2.trans h2⟩

theorem reach_storeInv (cfg : Config) (hinj : Function.Injective cfg.uuidGen)
    (st : AppState) (hr : Reach cfg st) : StoreInv cfg st := by
  induction hr with
  | init => exact ⟨[], List.nodup_nil, by simp, by simp [initState], by simp [initState]⟩
  | step st event context hprev ih =>
    obtain ⟨is, hnd, hlt, hmap, hval⟩ := ih
    rcases lambda_handler_cases cfg st event context with ⟨h1, h2⟩ | ⟨t, hid, hvt, h1, h2⟩
    · refine ⟨is, hnd, fun i hi => ?_, ?_, fun p hp => hval p ?_⟩
      · rw [h2]; exact hlt i hi
      · rw [h1]; exact hmap
      · rwa [h1] at hp
    · have hfresh : cfg.uuidGen st.uk ∉ st.tasks.map Prod.fst := by
        rw [hmap]
        intro hmem
        obtain ⟨i, hi, hgen⟩ := List.mem_map.mp hmem
        have hieq : i = st.uk := hinj hgen
        subst hieq
        exact absurd (hlt _ hi) (lt_irrefl _)
      have hins := dictInsert_fresh st.tasks (cfg.uuidGen st.uk) t hfresh
      refine ⟨is ++ [st.uk], ?_, ?_, ?_, ?_⟩
      · rw [List.nodup_append]
        refine ⟨hnd, List.nodup_singleton _, ?_⟩
        intro i hi hmem
        rw [List.mem_singleton] at hmem
        subst hmem
        exact absurd (hlt _ hi) (lt_irrefl _)
      · intro i hi
        rw [h2]
        rcases List.mem_append.mp hi with hmem | hmem
        · exact Nat.lt_succ_of_lt (hlt i hmem)
        · rw [List.mem_singleton] at hmem
          subst hmem
          exact Nat.lt_succ_self _
      · rw [h1, hins]
        simp only [List.map_append, hmap, List.map_cons, List.map_nil]
      · intro p hp
        rw [h1, hins] at hp
        rcases List.mem_append.mp hp with hmem | hmem
        · exact hval p hmem
        · rw [List.mem_singleton] at hmem
          subst hmem
          exact ⟨hid, hvt⟩

/-- Claim C9 (amended, extended variant): provided the uuid source never
repeats a draw, every reachable extended-variant store has pairwise
distinct keys, every stored task was inserted by the create operation
(keyed by its own id) and satisfies the validation invariants, and any
further request only appends to the store, never mutating existing
entries; the basic variant enforces only title truthiness, storing
unvalidated titles (see the counterexample). -/
theorem claim_C9_store_invariants (cfg : Config) (hinj : Function.Injective cfg.uuidGen)
    (st : AppState) (hr : Reach cfg st) :
    (st.tasks.map Prod.fst).Nodup ∧
    (∀ p ∈ st.tasks, p.2.id = p.1 ∧ ValidTask cfg p.2) ∧
    (∀ event context, st.tasks <+: ((lambda_handler cfg st event context).2).tasks) := by
  obtain ⟨is, hnd, hlt, hmap, hval⟩ := reach_storeInv cfg hinj st hr
  refine ⟨?_, fun p hp => hval p hp, ?_⟩
  · rw [hmap]
    exact hnd.map hinj
  · intro event context
    rcases lambda_handler_cases cfg st event context with ⟨h1, h2⟩ | ⟨t, hid, hvt, h1, h2⟩
    · rw [h1]
    · have hfresh : cfg.uuidGen st.uk ∉ st.tasks.map Prod.fst := by
        rw [hmap]
        intro hmem
        obtain ⟨i, hi, hgen⟩ := List.mem_map.mp hmem
        have hieq : i = st.uk := hinj hgen
        subst hieq
        exact absurd (hlt _ hi) (lt_irrefl _)
      rw [h1, dictInsert_fresh st.tasks (cfg.uuidGen st.uk) t hfresh]
      exact List.prefix_append _ _

theorem cfgW_uuidGen_inj : Function.Injective cfgW.uuidGen := by
  intro a b hab
  have hlen := congrArg (fun s => s.data.length) hab
  simpa [cfgW] using hlen

theorem claim_C9_witness :
    ((((lambda_handler cfgW initState ev7 ctx0).2).tasks.map Prod.fst).Nodup) ∧
    (∀ p ∈ ((lambda_handler cfgW initState ev7 ctx0).2).tasks,
      p.2.id = p.1 ∧ ValidTask cfgW p.2) ∧
    (∀ event context, ((lambda_handler cfgW initState ev7 ctx0).2).tasks <+:
      ((lambda_handler cfgW ((lambda_handler cfgW initState ev7 ctx0).2)
        event context).2).tasks) :=
  claim_C9_store_invariants cfgW cfgW_uuidGen_inj _
    (Reach.step initState ev7 ctx0 Reach.init)

end TaskApi
